import Mathlib

set_option linter.unusedVariables false

namespace Leo

/-- Occurrence test on character lists, structural so that proofs can evaluate it. -/
def containsChars : List Char → List Char → Bool
  | [], pat => pat.isEmpty
  | c :: cs, pat => pat.isPrefixOf (c :: cs) || containsChars cs pat

/-- Python-style substring test: `strContains s pat` models Python's `pat in s`. -/
def strContains (s pat : String) : Bool :=
  containsChars s.data pat.data

/-- Python `str.lower()` (ASCII-adequate for the strings this pipeline handles). -/
def pyLower (s : String) : String :=
  String.mk (s.data.map Char.toLower)

/-- Python `str.capitalize()`: first character upper-cased, the rest lower-cased. -/
def pyCapitalize (s : String) : String :=
  match s.data with
  | [] => ""
  | c :: cs => String.mk (c.toUpper :: cs.map Char.toLower)

/-- Fuel-driven replacement on character lists; the fuel is the length of the
scanned list, which bounds the number of steps when the pattern is non-empty. -/
def replaceChars : Nat → List Char → List Char → List Char → List Char
  | _, [], _, _ => []
  | 0, s, _, _ => s
  | fuel + 1, c :: cs, pat, rep =>
      if pat.isPrefixOf (c :: cs) then
        rep ++ replaceChars fuel ((c :: cs).drop pat.length) pat rep
      else
        c :: replaceChars fuel cs pat rep

/-- Python `str.replace(pat, rep)` for a non-empty pattern (the only use here). -/
def pyReplace (s pat rep : String) : String :=
  if pat.data.isEmpty then s
  else String.mk (replaceChars s.length s.data pat.data rep.data)

/-- Drop leading whitespace from a character list. -/
def trimCharsLeft : List Char → List Char
  | [] => []
  | c :: cs => if c.isWhitespace then trimCharsLeft cs else c :: cs

/-- Python `str.strip()`: whitespace removed from both ends. -/
def pyTrim (s : String) : String :=
  String.mk ((trimCharsLeft ((trimCharsLeft s.data).reverse)).reverse)

/-- Fuel-driven split on a non-empty separator, accumulating the current piece. -/
def splitChars : Nat → List Char → List Char → List Char → List String
  | _, [], _, acc => [String.mk acc.reverse]
  | 0, s, _, acc => [String.mk (acc.reverse ++ s)]
  | fuel + 1, c :: cs, sep, acc =>
      if sep.isPrefixOf (c :: cs) then
        String.mk acc.reverse :: splitChars fuel ((c :: cs).drop sep.length) sep []
      else
        splitChars fuel cs sep (c :: acc)

/-- Python `str.split(sep)` for a non-empty separator (the only use here). -/
def pySplit (s sep : String) : List String :=
  if sep.data.isEmpty then [s] else splitChars s.length s.data sep.data []

/-- A single-quote character, used when rendering Python list literals. -/
def sq : String := String.singleton (Char.ofNat 39)

/-- Values stored in a profile row / dict: null, a string, or a list of strings. -/
inductive PVal
  | null
  | str (s : String)
  | list (l : List String)
deriving DecidableEq

/-- A Python dict from string keys to values; absence of a key models a missing field. -/
abbrev Row : Type := List (String × PVal)

/-- Python `dict[k]` presence-aware lookup: `none` means the key is absent. -/
def rowGet (r : Row) (k : String) : Option PVal :=
  (r.find? (fun kv => kv.1 == k)).map (fun kv => kv.2)

/-- Python `dict[k] = v`: replace the binding if the key exists, else append it. -/
def rowSet (r : Row) (k : String) (v : PVal) : Row :=
  if (r.find? (fun kv => kv.1 == k)).isSome then
    r.map (fun kv => if kv.1 == k then (k, v) else kv)
  else r ++ [(k, v)]

/-- Python `str(v)` rendering of a profile value inside an f-string. -/
def pyStr : PVal → String
  | .null => "None"
  | .str s => s
  | .list l => "[" ++ String.intercalate ", " (l.map (fun x => sq ++ x ++ sq)) ++ "]"

/-- Key `k` is absent from the row or bound to null
(the condition `k not in profile_data or profile_data[k] is None` of line 113). -/
def isMissingOrNull (r : Row) (k : String) : Bool :=
  match rowGet r k with
  | none => true
  | some .null => true
  | some _ => false

/-- The `defaults` dict of `_load_user_profile` (lines 99-110): each value is
`profile_data.get(field, constant)`, so a present-but-null field yields null. -/
def defaultsFor (r : Row) : List (String × PVal) :=
  [ ("brand_tone", (rowGet r "brand_tone").getD (.str "professional")),
    ("business_name", (rowGet r "business_name").getD (.str "Our Business")),
    ("industry", (rowGet r "industry").getD (.list ["general"])),
    ("target_audience", (rowGet r "target_audience").getD (.list ["our audience"])),
    ("unique_value", (rowGet r "unique_value_proposition").getD (.str "providing value")),
    ("brand_voice", (rowGet r "brand_voice").getD (.str "professional and helpful")),
    ("content_themes", (rowGet r "content_themes").getD (.list ["business", "growth"])),
    ("primary_color", (rowGet r "primary_color").getD (.str "#007bff")),
    ("secondary_color", (rowGet r "secondary_color").getD (.str "#6c757d")),
    ("brand_colors", (rowGet r "brand_colors").getD (.list ["#007bff", "#6c757d"])) ]

/-- Line 113 of `_load_user_profile`: `profile_data.update({k: v for k, v in
defaults.items() if k not in profile_data or profile_data[k] is None})`. -/
def mergeDefaults (r : Row) : Row :=
  ((defaultsFor r).filter (fun kv => isMissingOrNull r kv.1)).foldl
    (fun acc kv => rowSet acc kv.1 kv.2) r

/-- The fully-defaulted minimal context returned on a datastore error (lines 122-133). -/
def minimalContext : Row :=
  [ ("business_name", .str "Our Business"),
    ("brand_tone", .str "professional"),
    ("brand_voice", .str "helpful and engaging"),
    ("industry", .list ["general"]),
    ("target_audience", .list ["our audience"]),
    ("unique_value_proposition", .str "providing value"),
    ("content_themes", .list ["business"]),
    ("primary_color", .str "#007bff"),
    ("secondary_color", .str "#6c757d"),
    ("brand_colors", .list ["#007bff", "#6c757d"]) ]

/-- Outcome of the profiles-table query: a datastore error (the `except` branch)
or a successful response with a list of rows. -/
inductive ProfileFetch
  | err
  | ok (rows : List Row)
deriving DecidableEq

/-- Embedding of `_load_user_profile` (lines 76-133): rows present gives the merged
record, zero rows gives the empty dict, a datastore error gives `minimalContext`. -/
def load_user_profile : ProfileFetch → Row
  | .err => minimalContext
  | .ok [] => ([] : Row)
  | .ok (r :: _) => mergeDefaults r

/-- Concrete profile row whose `unique_value_proposition` field is present but null. -/
def nullUvpRow : Row := [("unique_value_proposition", PVal.null)]

/-- Python `any(word in s for word in ws)`. -/
def hasAny (s : String) (ws : List String) : Bool :=
  ws.any (fun w => strContains s w)

/-- Industry extraction of `_analyze_content_for_visual_style` (lines 269-272):
`.get('industry', [])`, first element of a list (or `general`), rendered with `str`. -/
def industryOf (business_context : Row) : String :=
  match rowGet business_context "industry" with
  | none => "general"
  | some (.list []) => "general"
  | some (.list (x :: _)) => x
  | some (.str s) => s
  | some .null => "None"

/-- Brand-tone extraction (line 274): `.get('brand_tone', '').lower()`; the result
is `some ""` when the field is absent and `some` of the lower-cased value when it
is a string, while `none` models the AttributeError that `.lower()` raises on a
present-but-null (or list-valued) field. -/
def brandToneOf (business_context : Row) : Option String :=
  match rowGet business_context "brand_tone" with
  | none => some ""
  | some (.str s) => some (pyLower s)
  | some _ => none

/-- Embedding of `_analyze_content_for_visual_style` (lines 257-361): the catalog
parameter stands for the keys of the externally loaded `image_enhancer_prompts`
mapping; the `topic` argument is lower-cased by the source but never used.  The
catalog override returns before the brand-tone read; after it, the brand-tone
extraction at line 274 runs before the decision chain, so a present non-string
`brand_tone` raises AttributeError out of the classifier (result `none`). -/
def analyze_content_for_visual_style (content_theme topic : String) (business_context : Row)
    (requested_visual_style : String) (catalog : List String) : Option String :=
  if requested_visual_style ≠ "" ∧ requested_visual_style ∈ catalog then
    some requested_visual_style
  else
    (brandToneOf business_context).map (fun brand_tone =>
      if hasAny (pyLower content_theme) ["business", "corporate", "professional", "enterprise", "b2b"] then "modern_corporate_b2b"
      else if hasAny (pyLower content_theme) ["luxury", "premium", "elegant", "high-end"] then "luxury_editorial"
      else if hasAny (pyLower content_theme) ["lifestyle", "daily", "personal", "authentic"] then "photography_led_lifestyle"
      else if hasAny (pyLower content_theme) ["product", "commercial", "advertising", "marketing"] then "product_focused_commercial"
      else if hasAny (pyLower content_theme) ["educational", "how-to", "tutorial", "explain"] then "isometric_explainer"
      else if hasAny (pyLower content_theme) ["fun", "youthful", "playful", "creative"] then "playful_youthful_memphis"
      else if hasAny (pyLower content_theme) ["data", "infographic", "statistics", "analytics"] then "infographic_data_driven"
      else if hasAny (pyLower content_theme) ["quote", "inspiration", "motivation", "thought"] then "quote_card_typography"
      else if hasAny (pyLower content_theme) ["meme", "viral", "social", "engagement"] then "meme_style_engagement"
      else if hasAny (pyLower content_theme) ["tech", "ai", "future", "innovation", "digital"] then "futuristic_tech_dark"
      else if hasAny (pyLower content_theme) ["retro", "vintage", "classic", "nostalgic"] then "retro_vintage_poster"
      else if hasAny (pyLower content_theme) ["modern", "clean", "minimal", "simple"] then "minimal_clean_bold_typography"
      else if hasAny (pyLower content_theme) ["artistic", "abstract", "creative", "experimental"] then "experimental_artistic_concept"
      else if hasAny (pyLower content_theme) ["illustration", "cartoon", "characters", "fun"] then "flat_illustration_characters"
      else if hasAny (pyLower content_theme) ["editorial", "magazine", "publication"] then "magazine_editorial_layout"
      else if hasAny (pyLower content_theme) ["impact", "bold", "attention", "striking"] then "high_impact_color_blocking"
      else if hasAny (pyLower content_theme) ["glass", "modern", "ui", "interface"] then "glassmorphism_neumorphism"
      else if hasAny (pyLower content_theme) ["texture", "paper", "handmade", "organic"] then "textured_design_paper"
      else if hasAny (pyLower content_theme) ["abstract", "shapes", "fluid", "gradient"] then "abstract_shapes_gradients"
      else if hasAny (pyLower content_theme) ["festive", "celebration", "holiday", "seasonal"] then "festive_campaign_creative"
      else if hasAny (pyLower (industryOf business_context)) ["fashion", "beauty"] then "luxury_editorial"
      else if hasAny (pyLower (industryOf business_context)) ["tech", "software"] then "futuristic_tech_dark"
      else if hasAny (pyLower (industryOf business_context)) ["food", "restaurant"] then "photography_led_lifestyle"
      else if hasAny (pyLower (industryOf business_context)) ["finance", "consulting"] then "modern_corporate_b2b"
      else if hasAny brand_tone ["luxurious", "elegant"] then "luxury_editorial"
      else if hasAny brand_tone ["professional", "corporate"] then "modern_corporate_b2b"
      else if hasAny brand_tone ["playful", "fun"] then "playful_youthful_memphis"
      else "minimal_clean_bold_typography")

/-- Ordered theme keyword groups of the spec, one per `elif` branch of the source. -/
def themeRules : List (List String × String) :=
  [ (["business", "corporate", "professional", "enterprise", "b2b"], "modern_corporate_b2b"),
    (["luxury", "premium", "elegant", "high-end"], "luxury_editorial"),
    (["lifestyle", "daily", "personal", "authentic"], "photography_led_lifestyle"),
    (["product", "commercial", "advertising", "marketing"], "product_focused_commercial"),
    (["educational", "how-to", "tutorial", "explain"], "isometric_explainer"),
    (["fun", "youthful", "playful", "creative"], "playful_youthful_memphis"),
    (["data", "infographic", "statistics", "analytics"], "infographic_data_driven"),
    (["quote", "inspiration", "motivation", "thought"], "quote_card_typography"),
    (["meme", "viral", "social", "engagement"], "meme_style_engagement"),
    (["tech", "ai", "future", "innovation", "digital"], "futuristic_tech_dark"),
    (["retro", "vintage", "classic", "nostalgic"], "retro_vintage_poster"),
    (["modern", "clean", "minimal", "simple"], "minimal_clean_bold_typography"),
    (["artistic", "abstract", "creative", "experimental"], "experimental_artistic_concept"),
    (["illustration", "cartoon", "characters", "fun"], "flat_illustration_characters"),
    (["editorial", "magazine", "publication"], "magazine_editorial_layout"),
    (["impact", "bold", "attention", "striking"], "high_impact_color_blocking"),
    (["glass", "modern", "ui", "interface"], "glassmorphism_neumorphism"),
    (["texture", "paper", "handmade", "organic"], "textured_design_paper"),
    (["abstract", "shapes", "fluid", "gradient"], "abstract_shapes_gradients"),
    (["festive", "celebration", "holiday", "seasonal"], "festive_campaign_creative") ]

/-- Industry substring groups, in source order. -/
def industryRules : List (List String × String) :=
  [ (["fashion", "beauty"], "luxury_editorial"),
    (["tech", "software"], "futuristic_tech_dark"),
    (["food", "restaurant"], "photography_led_lifestyle"),
    (["finance", "consulting"], "modern_corporate_b2b") ]

/-- Brand-tone substring groups, in source order. -/
def toneRules : List (List String × String) :=
  [ (["luxurious", "elegant"], "luxury_editorial"),
    (["professional", "corporate"], "modern_corporate_b2b"),
    (["playful", "fun"], "playful_youthful_memphis") ]

/-- First rule whose keyword group matches the text; ordered first-match semantics. -/
def firstRule (rules : List (List String × String)) (s : String) : Option String :=
  rules.findSome? (fun r => if hasAny s r.1 then some r.2 else none)

/-- A calendar entry as selected by the cron query; the DB columns used by the
pipeline are modelled as always-present strings (plus optional scheduling fields),
with structure defaults mirroring the `.get` defaults of `generate_content`. -/
structure Entry where
  id : String := "entry-1"
  topic : String := "Sample Topic"
  platform : String := "Instagram"
  content_type : String := "static_post"
  content_theme : String := "business"
  visual_style : String := "minimal_clean_bold_typography"
  entry_date : Option String := none
  scheduled_time : Option String := none
deriving DecidableEq

/-- The `reel_script` dict built for reel entries. -/
structure ReelScript where
  hook : Option String := none
  value : Option String := none
  story : Option String := none
  cta : Option String := none
deriving DecidableEq

/-- The `video_script` dict built for video entries. -/
structure VideoScript where
  introduction : Option String := none
  main_content : Option String := none
  expert_insights : Option String := none
  conclusion : Option String := none
deriving DecidableEq

/-- One element of `carousel_images`; `generate_content` never sets `image_url`,
but `save_to_created_content` probes for it, so the field is modelled. -/
structure CarouselSlide where
  slide : Nat
  focus : String
  description : String
  image_url : Option String := none
deriving DecidableEq

/-- The content record (`content_data` dict) produced by `generate_content`;
optional fields model keys that only some content types set, and the defaults of
`generate_image`/`aspect_ratio`/`slide_count` mirror the `.get` defaults used by
the downstream stages. -/
structure ContentData where
  platform : String := "Instagram"
  topic : String := "Sample Topic"
  content_type : String := "static_post"
  content_theme : String := "business"
  visual_style : String := "minimal_clean_bold_typography"
  tone : String := "professional"
  business_name : String := "Our Business"
  industry : String := "general"
  target_audience : String := "our audience"
  brand_voice : String := "confident and innovative"
  unique_value : String := "providing value"
  primary_color : String := "#007bff"
  secondary_color : String := "#6c757d"
  title : Option String := none
  content : Option String := none
  image_type : Option String := none
  aspect_ratio : String := "1:1"
  text_overlay : Option Bool := none
  generate_image : Bool := true
  generate_script : Bool := false
  hashtags : List String := []
  carousel_images : List CarouselSlide := []
  slide_count : Option Nat := none
  reel_script : Option ReelScript := none
  video_script : Option VideoScript := none
  duration : Option String := none
  hook_type : Option String := none
  call_to_action : Option String := none
deriving DecidableEq

/-- Python `business_context.get(k, d)` rendered with `str` at its use sites. -/
def pyGetStr (bc : Row) (k d : String) : String :=
  match rowGet bc k with
  | none => d
  | some v => pyStr v

/-- Target-audience extraction of `generate_content` (lines 434-436). -/
def audienceOf (business_context : Row) : String :=
  match rowGet business_context "target_audience" with
  | none => "our audience"
  | some (.list []) => "our audience"
  | some (.list (x :: _)) => x
  | some (.str s) => s
  | some .null => "None"

/-- Hashtag synthesis of `generate_content` (lines 563-570), used when the business
context supplies no precomputed hashtag list.  The first comparison keeps the
source literal `content_type == 'short_video or reel'` verbatim. -/
def synthHashtags (industry topic content_type : String) : List String :=
  let base := ["#Business", "#Success",
               "#" ++ pyReplace industry " " "",
               "#" ++ pyCapitalize (pyReplace topic " " "")]
  if content_type = "short_video or reel" then base ++ ["#Reels", "#ShortVideo"]
  else if content_type = "carousel" then base ++ ["#Carousel", "#Swipe"]
  else if content_type = "story" then base ++ ["#Stories", "#BehindTheScenes"]
  else base

/-- Whether the `industry` value extracted at lines 431-433 of `generate_content`
is an actual string: a present-but-null field survives extraction as Python
`None`, whose later `.replace` call raises. -/
def industryIsString (business_context : Row) : Bool :=
  match rowGet business_context "industry" with
  | some .null => false
  | _ => true

/-- Embedding of `generate_content` (lines 418-581).  The `none` result models the
`except` branch; it is reached when a non-empty list is stored under
`hashtags_that_work_well` (its `.split(',')` would raise) and when hashtags are
synthesized while the extracted industry value is Python `None`
(`industry.replace(" ", "")` at line 563 would raise).  Null fields that are only
interpolated into f-strings render as `str()` does. -/
def generate_content (entry : Entry) (business_context : Row) : Option ContentData :=
  let topic := entry.topic
  let platform := entry.platform
  let content_type := entry.content_type
  let content_theme := entry.content_theme
  let visual_style := entry.visual_style
  let business_name := pyGetStr business_context "business_name" "Our Business"
  let brand_tone := pyGetStr business_context "brand_tone" "professional"
  let brand_voice := pyGetStr business_context "brand_voice" "confident and innovative"
  let industry := industryOf business_context
  let target_audience := audienceOf business_context
  let unique_value := pyGetStr business_context "unique_value_proposition" "providing value"
  let primary_color := pyGetStr business_context "primary_color" "#007bff"
  let secondary_color := pyGetStr business_context "secondary_color" "#6c757d"
  let base : ContentData :=
    { platform := platform, topic := topic, content_type := content_type,
      content_theme := content_theme, visual_style := visual_style, tone := brand_tone,
      business_name := business_name, industry := industry,
      target_audience := target_audience, brand_voice := brand_voice,
      unique_value := unique_value, primary_color := primary_color,
      secondary_color := secondary_color, hashtags := [] }
  let cd : ContentData :=
    if content_type = "static_post" then
      { base with
        title := some (business_name ++ ": " ++ topic),
        content := some ("Discover how " ++ business_name ++ " helps " ++ target_audience
          ++ " with " ++ topic ++ ". Our " ++ unique_value
          ++ " makes us the perfect partner for your " ++ industry
          ++ " needs. #BusinessExcellence"),
        image_type := some "single_image", aspect_ratio := "1:1",
        text_overlay := some true, generate_image := true }
    else if content_type = "image_post" then
      { base with
        title := some (business_name ++ ": " ++ topic),
        content := some ("Visual insights about " ++ topic ++ " from " ++ business_name
          ++ ". Perfect for " ++ target_audience ++ " in " ++ industry ++ "."),
        image_type := some "single_image", aspect_ratio := "1:1",
        text_overlay := some false, generate_image := true }
    else if content_type = "carousel" then
      { base with
        title := some (topic ++ " - Complete Guide by " ++ business_name),
        content := some ("📱 Swipe through our complete guide to " ++ topic
          ++ "! Our expertise in " ++ industry ++ " helps " ++ target_audience
          ++ " achieve better results. Follow along for valuable insights! 📈"),
        carousel_images :=
          [ { slide := 1, focus := "Introduction",
              description := "Why " ++ topic ++ " matters for " ++ target_audience },
            { slide := 2, focus := "Key Benefits",
              description := "Benefits of " ++ topic ++ " in " ++ industry },
            { slide := 3, focus := "Our Approach",
              description := "How " ++ business_name ++ " helps with " ++ topic },
            { slide := 4, focus := "Call to Action",
              description := "Next steps for " ++ target_audience } ],
        image_type := some "carousel", aspect_ratio := "1:1",
        slide_count := some 4, generate_image := true }
    else if content_type = "story" then
      { base with
        title := some ("Quick Tip: " ++ topic),
        content := some ("💡 " ++ topic ++ " hack for " ++ target_audience ++ " in "
          ++ industry ++ "! At " ++ business_name ++ ", we believe in " ++ brand_voice
          ++ " communication. Tap to learn more! 👆"),
        image_type := some "story", aspect_ratio := "9:16",
        duration := some "15 seconds", generate_image := true }
    else if content_type = "reel" then
      { base with
        title := some (topic ++ " Explained"),
        content := some ("🎬 Watch: How " ++ business_name ++ " helps " ++ target_audience
          ++ " with " ++ topic ++ ". Our " ++ industry ++ " expertise makes "
          ++ unique_value ++ " possible!"),
        reel_script := some
          { hook := some ("Did you know " ++ topic ++ " can transform your "
              ++ industry ++ " business?"),
            value := some ("At " ++ business_name ++ ", we help " ++ target_audience
              ++ " achieve better results with " ++ topic),
            story := some ("Here" ++ sq ++ "s how " ++ unique_value
              ++ " makes the difference"),
            cta := some ("Learn more about our " ++ industry ++ " solutions!") },
        image_type := some "video_thumbnail", aspect_ratio := "9:16",
        duration := some "15-30 seconds",
        generate_image := false, generate_script := true }
    else if content_type = "video" then
      { base with
        title := some ("Complete Guide: " ++ topic),
        content := some ("🎥 Full video: Everything you need to know about " ++ topic
          ++ ". Our " ++ industry ++ " experts at " ++ business_name
          ++ " break it down for " ++ target_audience ++ "!"),
        video_script := some
          { introduction := some ("Welcome to " ++ business_name
              ++ "s complete guide to " ++ topic),
            main_content := some ("Detailed explanation of " ++ topic ++ " for "
              ++ target_audience ++ " in " ++ industry),
            expert_insights := some ("Why " ++ unique_value ++ " matters"),
            conclusion := some ("How " ++ business_name ++ " can help you with "
              ++ topic) },
        image_type := some "video_thumbnail", aspect_ratio := "16:9",
        duration := some "5-15 minutes",
        generate_image := false, generate_script := true }
    else
      { base with
        title := some (business_name ++ " - " ++ topic),
        content := some ("Exciting news from " ++ business_name ++ "! We" ++ sq
          ++ "re sharing insights about " ++ topic ++ " that matter to "
          ++ target_audience ++ " in " ++ industry ++ "."),
        image_type := some "single_image", aspect_ratio := "1:1",
        generate_image := true }
  match rowGet business_context "hashtags_that_work_well" with
  | some (.str s) =>
      if s = "" then
        if industryIsString business_context then
          some { cd with hashtags := synthHashtags industry topic content_type }
        else none
      else some { cd with hashtags := pySplit s "," }
  | some (.list (_ :: _)) => none
  | _ =>
      if industryIsString business_context then
        some { cd with hashtags := synthHashtags industry topic content_type }
      else none

/-- The end-to-end scenario entry of the spec (claim C8). -/
def entryC8 : Entry :=
  { content_type := "static_post", topic := "Spring Sale", platform := "Instagram" }

/-- The end-to-end scenario business context of the spec (claim C8). -/
def bcC8 : Row :=
  [ ("business_name", .str "Acme"),
    ("industry", .list ["retail"]),
    ("target_audience", .list ["shoppers"]) ]

/-- Specification-level description of the Visual Style Classifier, following the
spec wording: explicit catalog override, then ordered theme keyword groups with the
first match winning, then industry substrings, then brand-tone substrings, then the
fixed default style. -/
def visualStyleSpec (content_theme topic : String) (business_context : Row)
    (requested_visual_style : String) (catalog : List String) : String :=
  if requested_visual_style ≠ "" ∧ requested_visual_style ∈ catalog then requested_visual_style
  else
    (firstRule themeRules (pyLower content_theme)).getD
      ((firstRule industryRules (pyLower (industryOf business_context))).getD
        ((firstRule toneRules ((brandToneOf business_context).getD "")).getD
          "minimal_clean_bold_typography"))
/-- The content-type-specific directive block (`_get_content_specific_prompt_addition`,
lines 742-759). -/
def get_content_specific_prompt_addition (content_data : ContentData) : String :=
  let content_type := content_data.content_type
  let topic := content_data.topic
  let content_theme := content_data.content_theme
  if content_type = "carousel" then
    let slide_count := content_data.slide_count.getD 4
    "\n\nCONTENT SPECIFIC: This is part of a " ++ toString slide_count
      ++ "-slide carousel series about " ++ sq ++ topic ++ sq ++ " in " ++ sq
      ++ content_theme ++ sq ++ " theme. Design as a cohesive carousel image."
  else if content_type = "story" then
    "\n\nCONTENT SPECIFIC: Vertical story format optimized for mobile viewing about "
      ++ sq ++ topic ++ sq ++ " in " ++ sq ++ content_theme ++ sq ++ " theme."
  else if content_type = "static_post" ∨ content_type = "image_post" then
    "\n\nCONTENT SPECIFIC: Single image post about " ++ sq ++ topic ++ sq ++ " in "
      ++ sq ++ content_theme ++ sq ++ " theme, perfect for Instagram feed."
  else
    "\n\nCONTENT SPECIFIC: Content about " ++ sq ++ topic ++ sq ++ " in " ++ sq
      ++ content_theme ++ sq ++ " theme."

/-- The mandatory brand-color directive block (lines 722-734). -/
def brand_color_addition_block (primary_color secondary_color business_name content_theme
    platform aspect_ratio user_id : String) : String :=
  "\n\nCRITICAL BRAND COLOR REQUIREMENTS:\n- Primary Brand Color: " ++ primary_color
    ++ " (USE THIS AS THE DOMINANT COLOR)\n- Secondary Brand Color: " ++ secondary_color
    ++ " (USE FOR ACCENTS AND SECONDARY ELEMENTS)\n- Business: " ++ business_name
    ++ "\n- Content Theme: " ++ content_theme ++ "\n- Platform: " ++ platform
    ++ "\n- Aspect Ratio: " ++ aspect_ratio
    ++ "\n\nENSURE THE GENERATED IMAGE INCORPORATES THESE BRAND COLORS PROMINENTLY.\n\nVERIFICATION: These colors come from the user"
    ++ sq ++ "s profile in Supabase (user_id: " ++ user_id ++ ")."

/-- Embedding of `create_gemini_image_prompt` (lines 699-740).  Both directive
blocks are computed exactly as in the source and, exactly as in the source, left
unused by the returned value, which is only `prompt.strip()`. -/
def create_gemini_image_prompt (content_data : ContentData) (visual_style platform : String)
    (business_context : Row) (enhanced_prompt : String) : String :=
  let topic := content_data.topic
  let content_theme := content_data.content_theme
  let aspect_ratio := content_data.aspect_ratio
  let business_name := content_data.business_name
  let primary_color := content_data.primary_color
  let secondary_color := content_data.secondary_color
  let prompt :=
    if enhanced_prompt ≠ "" ∧ 50 < enhanced_prompt.length then enhanced_prompt
    else "Create a professional " ++ visual_style ++ " image for " ++ platform
      ++ " about " ++ topic ++ " in " ++ content_theme ++ " theme"
  let content_specific_addition := get_content_specific_prompt_addition content_data
  let brand_color_addition := brand_color_addition_block primary_color secondary_color
    business_name content_theme platform aspect_ratio
    (pyStr ((rowGet business_context "id").getD (.str "unknown")))
  pyTrim prompt

/-- Concrete content record for exercising the Prompt Composer. -/
def cdC1 : ContentData :=
  { content_type := "static_post", topic := "Spring Sale", content_theme := "business",
    business_name := "Acme", primary_color := "#ff0000", secondary_color := "#00ff00" }

/-- A concrete enhanced prompt longer than 50 characters, with no edge whitespace. -/
def epC1 : String :=
  "A detailed marketing layout description longer than fifty characters"

/-- An uploaded image URL together with its generated caption. -/
structure GeneratedAsset where
  image_url : String
  caption : String
deriving DecidableEq

/-- The simplified fallback prompt of the image stage (line 652), built only from
visual style, platform, topic, business name and industry. -/
def basic_prompt (visual_style platform topic : String) (business_context : Row) : String :=
  "Create a professional " ++ visual_style ++ " image for " ++ platform ++ " about "
    ++ topic ++ " for "
    ++ pyStr ((rowGet business_context "business_name").getD (.str "a business"))
    ++ " in the "
    ++ pyStr ((rowGet business_context "industry").getD (.str "general"))
    ++ " industry"

/-- Environment of the image stage: availability of the image client, the outcomes
of the two possible generation calls (`none` models a raised API error), the
uploader (`none` models an upload failure, caught inside the uploader), and the
caption text (`generate_caption_for_image` catches its own failures and always
returns a string). -/
structure ImgEnv where
  openaiAvailable : Bool
  primaryGen : Option String
  retryGen : Option String
  upload : String → Option String
  captionText : String
  profileFetch : ProfileFetch

/-- Embedding of `generate_and_save_images` (lines 583-697), returning the optional
asset together with the list of prompts submitted to the image API, in order.  The
enhanced prompt derived from the external `image_enhancer_prompts.json` catalog is
a parameter, since that catalog is external data loaded at startup. -/
def generate_and_save_images (entry : Entry) (content_data : ContentData) (env : ImgEnv)
    (enhanced_prompt : String) : Option GeneratedAsset × List String :=
  if env.openaiAvailable ∧
      create_gemini_image_prompt content_data entry.visual_style entry.platform
        (load_user_profile env.profileFetch) enhanced_prompt ≠ "" then
    match env.primaryGen with
    | some url =>
        (match env.upload url with
         | some uploaded =>
             (some { image_url := uploaded, caption := env.captionText },
              [create_gemini_image_prompt content_data entry.visual_style entry.platform
                 (load_user_profile env.profileFetch) enhanced_prompt])
         | none =>
             (none,
              [create_gemini_image_prompt content_data entry.visual_style entry.platform
                 (load_user_profile env.profileFetch) enhanced_prompt]))
    | none =>
        match env.retryGen with
        | some url =>
            (match env.upload url with
             | some uploaded =>
                 (some { image_url := uploaded, caption := env.captionText },
                  [create_gemini_image_prompt content_data entry.visual_style entry.platform
                     (load_user_profile env.profileFetch) enhanced_prompt,
                   basic_prompt entry.visual_style entry.platform entry.topic
                     (load_user_profile env.profileFetch)])
             | none =>
                 (none,
                  [create_gemini_image_prompt content_data entry.visual_style entry.platform
                     (load_user_profile env.profileFetch) enhanced_prompt,
                   basic_prompt entry.visual_style entry.platform entry.topic
                     (load_user_profile env.profileFetch)]))
        | none =>
            (none,
             [create_gemini_image_prompt content_data entry.visual_style entry.platform
                (load_user_profile env.profileFetch) enhanced_prompt,
              basic_prompt entry.visual_style entry.platform entry.topic
                (load_user_profile env.profileFetch)])
  else (none, [])

/-- Concrete image-stage environment in which both generation calls fail. -/
def envW : ImgEnv :=
  { openaiAvailable := true, primaryGen := none, retryGen := none,
    upload := fun _ => none, captionText := "", profileFetch := .ok [] }

/-- The output row written to the `created_content` table; the `generated_at`
wall-clock timestamp of the metadata block is omitted from the model. -/
structure DbRow where
  user_id : String
  platform : Option String
  content_type : String
  title : String
  content : String
  status : String
  channel : String
  hashtags : List String
  images : List String
  media_url : Option String
  carousel_images : List String
  short_video_script : Option String
  long_video_script : Option String
  scheduled_date : Option String
  scheduled_time : Option String
  hook_type : Option String
  call_to_action : Option String
  metadata_calendar_entry_id : String
  metadata_content_theme : String
  metadata_visual_style : String
  metadata_topic : String
  metadata_generated_by : String
deriving DecidableEq

/-- Embedding of `_format_reel_script` (lines 968-979); empty or absent sections
are skipped, mirroring Python truthiness. -/
def format_reel_script (r : ReelScript) : String :=
  let parts :=
    (match r.hook with | some v => if v = "" then [] else ["HOOK: " ++ v] | none => []) ++
    (match r.value with | some v => if v = "" then [] else ["VALUE: " ++ v] | none => []) ++
    (match r.story with | some v => if v = "" then [] else ["STORY: " ++ v] | none => []) ++
    (match r.cta with | some v => if v = "" then [] else ["CTA: " ++ v] | none => [])
  if parts.isEmpty then "" else String.intercalate "\n\n" parts

/-- Embedding of `_format_video_script` (lines 981-992). -/
def format_video_script (r : VideoScript) : String :=
  let parts :=
    (match r.introduction with
     | some v => if v = "" then [] else ["INTRODUCTION: " ++ v] | none => []) ++
    (match r.main_content with
     | some v => if v = "" then [] else ["MAIN CONTENT: " ++ v] | none => []) ++
    (match r.expert_insights with
     | some v => if v = "" then [] else ["EXPERT INSIGHTS: " ++ v] | none => []) ++
    (match r.conclusion with
     | some v => if v = "" then [] else ["CONCLUSION: " ++ v] | none => [])
  if parts.isEmpty then "" else String.intercalate "\n\n" parts

/-- Row assembly of `save_to_created_content` (lines 882-946): platform and content
type are lower-cased, the body prefers a non-empty generated caption over the
synthesized content text, status is the constant `generated`, and optional image,
carousel, script, scheduling and hook fields are added only when present and
truthy. -/
def build_db_data (entry : Entry) (content_data : ContentData) (user_id : String)
    (image_url caption : Option String) : DbRow :=
  { user_id := user_id
    platform := if entry.platform = "" then none else some (pyLower entry.platform)
    content_type := pyLower entry.content_type
    title := content_data.title.getD (content_data.business_name ++ ": " ++ entry.topic)
    content :=
      match caption with
      | some c =>
          if c = "" then content_data.content.getD ("Content about " ++ entry.topic) else c
      | none => content_data.content.getD ("Content about " ++ entry.topic)
    status := "generated"
    channel := "Social Media"
    hashtags := content_data.hashtags
    images :=
      match image_url with
      | some u => if u = "" then [] else [u]
      | none => []
    media_url :=
      match image_url with
      | some u => if u = "" then none else some u
      | none => none
    carousel_images :=
      (content_data.carousel_images.filterMap (fun s => s.image_url)).filter
        (fun u => u ≠ "")
    short_video_script := content_data.reel_script.map format_reel_script
    long_video_script := content_data.video_script.map format_video_script
    scheduled_date :=
      match entry.entry_date with
      | some d => if d = "" then none else some d
      | none => none
    scheduled_time :=
      match entry.scheduled_time with
      | some t => if t = "" then none else some t
      | none => none
    hook_type :=
      match content_data.hook_type with
      | some h => if h = "" then none else some h
      | none => none
    call_to_action :=
      match content_data.call_to_action with
      | some c => if c = "" then none else some c
      | none => none
    metadata_calendar_entry_id := entry.id
    metadata_content_theme := entry.content_theme
    metadata_visual_style := entry.visual_style
    metadata_topic := entry.topic
    metadata_generated_by := "content_generation_cron" }

/-- Result of the `created_content` insert. -/
inductive InsertOutcome
  | ok
  | dbError (msg : String)
deriving DecidableEq

/-- Embedding of `save_to_created_content` (lines 873-966): builds the row and
attempts the insert; a database error is caught inside the stage (both branches
return normally, recorded by the Bool component). -/
def save_to_created_content (entry : Entry) (content_data : ContentData) (user_id : String)
    (image_url caption : Option String) (ins : DbRow → InsertOutcome) : DbRow × Bool :=
  match ins (build_db_data entry content_data user_id image_url caption) with
  | .ok => (build_db_data entry content_data user_id image_url caption, true)
  | .dbError _ => (build_db_data entry content_data user_id image_url caption, true)

/-- The `content`/`status` columns of a calendar entry. -/
structure EntryState where
  content : Bool
  status : String
deriving DecidableEq

/-- Observable events of one `process_single_entry` run: whether content synthesis
ran and what it returned, whether the calendar-entry update executed, whether the
insert was attempted, and the row that was actually persisted (if any). -/
structure ProcessTrace where
  synthResult : Option (Option ContentData) := none
  updated : Bool := false
  insertCalled : Bool := false
  savedRow : Option DbRow := none
deriving DecidableEq

/-- External outcomes consumed by one `process_single_entry` run: the calendar
lookup, the profile fetch, the synthesis result (`none` models the `except`
branch of `generate_content`), the image-stage result, and the insert outcome. -/
structure PipelineEnv where
  calendarUser : Option String
  profileFetch : ProfileFetch
  synth : Option ContentData
  imageResult : Option GeneratedAsset
  insert : InsertOutcome
deriving DecidableEq

/-- Embedding of `process_single_entry` (lines 164-225): missing calendar or empty
business context return with the entry untouched; a synthesis failure returns with
the entry untouched; otherwise the image stage runs only when `generate_image` is
set, the persistence stage runs (catching its own insert failure), and the entry
is unconditionally updated to content=true / status=content_generated. -/
def process_single_entry (env : PipelineEnv) (entry : Entry) (st : EntryState) :
    EntryState × ProcessTrace :=
  match env.calendarUser with
  | none => (st, {})
  | some user_id =>
      if load_user_profile env.profileFetch = ([] : Row) then (st, {})
      else
        match env.synth with
        | none => (st, { synthResult := some none })
        | some content_data =>
            let imgcap :=
              if content_data.generate_image then
                match env.imageResult with
                | some asset => (some asset.image_url, some asset.caption)
                | none => ((none : Option String), (none : Option String))
              else ((none : Option String), (none : Option String))
            let row := (save_to_created_content entry content_data user_id imgcap.1 imgcap.2
                          (fun _ => env.insert)).1
            ({ content := true, status := "content_generated" },
             { synthResult := some (some content_data), updated := true,
               insertCalled := true,
               savedRow := match env.insert with | .ok => some row | .dbError _ => none })

/-- Concrete insert environment that always fails. -/
def insFailW : DbRow → InsertOutcome := fun _ => .dbError "insert failed"

/-- Concrete pipeline environment with successful synthesis and failing insert. -/
def envC10 : PipelineEnv :=
  { calendarUser := some "user-1", profileFetch := .err, synth := some {},
    imageResult := none, insert := .dbError "insert failed" }

/-- Concrete pipeline environment with successful synthesis and successful insert. -/
def envC2ok : PipelineEnv :=
  { calendarUser := some "user-1", profileFetch := .err, synth := some {},
    imageResult := none, insert := .ok }

/-- Concrete pipeline environment in which content synthesis fails. -/
def envC2fail : PipelineEnv :=
  { calendarUser := some "user-1", profileFetch := .err, synth := none,
    imageResult := none, insert := .ok }

end Leo

namespace Leo

theorem rowSet_length_le (r : Row) (k : String) (v : PVal) :
    r.length ≤ (rowSet r k v).length := by
  unfold rowSet
  split
  · simp [Row]
  · simp [Row]

theorem length_le_foldl_rowSet (l : List (String × PVal)) (r : Row) :
    r.length ≤ (l.foldl (fun acc kv => rowSet acc kv.1 kv.2) r).length := by
  induction l generalizing r with
  | nil => exact Nat.le_refl _
  | cons kv tl ih =>
      exact Nat.le_trans (rowSet_length_le r kv.1 kv.2) (ih (rowSet r kv.1 kv.2))

theorem mergeDefaults_length_pos (r : Row) : 0 < (mergeDefaults r).length := by
  match r with
  | [] => decide
  | a :: as =>
      unfold mergeDefaults
      exact Nat.lt_of_lt_of_le (Nat.succ_pos _)
        (length_le_foldl_rowSet _ (a :: as))

/-- C3: the Profile Loader has exactly three outcomes: a datastore error yields the
fully-defaulted minimal context (the exception is never propagated, encoded by the
loader being a total function), a successful query with zero rows yields the empty
mapping, and a successful query with at least one row yields the merged,
non-empty record. -/
theorem profile_loader_three_outcomes :
    load_user_profile .err = minimalContext ∧
    0 < minimalContext.length ∧
    load_user_profile (.ok []) = ([] : Row) ∧
    ∀ (r : Row) (rows : List Row),
      0 < (load_user_profile (.ok (r :: rows))).length := by
  refine ⟨rfl, by decide, rfl, ?_⟩
  intro r rows
  exact mergeDefaults_length_pos r

/-- C4: evaluating the merge of `_load_user_profile` at a row whose
`unique_value_proposition` is null shows the field stays null in the returned
record (the documented default `providing value`, visible in `minimalContext`,
is not applied; the computed default lands under the key `unique_value` and is
itself null because `dict.get` returns null for a present-but-null field). -/
theorem profile_defaulting_null_uvp_bug :
    rowGet (mergeDefaults nullUvpRow) "unique_value_proposition" = some PVal.null ∧
    rowGet (mergeDefaults nullUvpRow) "unique_value" = some PVal.null ∧
    rowGet minimalContext "unique_value_proposition" = some (PVal.str "providing value") ∧
    load_user_profile (.ok [nullUvpRow]) = mergeDefaults nullUvpRow := by
  exact ⟨by decide, by decide, by decide, rfl⟩

theorem firstRule_nil_getD (s d : String) : (firstRule [] s).getD d = d := rfl

theorem firstRule_cons_getD (ws : List String) (st : String)
    (rules : List (List String × String)) (s d : String) :
    (firstRule ((ws, st) :: rules) s).getD d
      = if hasAny s ws then st else (firstRule rules s).getD d := by
  by_cases h : hasAny s ws
  · simp [firstRule, List.findSome?, h]
  · simp [firstRule, List.findSome?, h]

theorem analyze_eq_visualStyleSpec (ct t : String) (bc : Row) (rs : String)
    (cat : List String) (tone : String) (hTone : brandToneOf bc = some tone) :
    analyze_content_for_visual_style ct t bc rs cat
      = some (visualStyleSpec ct t bc rs cat) := by
  unfold analyze_content_for_visual_style visualStyleSpec
  by_cases h0 : rs ≠ "" ∧ rs ∈ cat
  · rw [if_pos h0, if_pos h0]
  · rw [if_neg h0, if_neg h0, hTone]
    refine congrArg some ?_
    simp only [Option.getD_some, themeRules, industryRules, toneRules,
               firstRule_cons_getD, firstRule_nil_getD]

/-- C6 counterexample: a business context whose `brand_tone` is present but null
(reachable, since such a field survives the Profile Loader merge, see C4) makes
the classifier raise AttributeError (modelled by `none`) even though the content
theme matches the first keyword group, for which the claimed precedence chain
(`visualStyleSpec`) yields `modern_corporate_b2b`; no style identifier is
returned at all. -/
theorem c6_null_brand_tone_raises :
    analyze_content_for_visual_style "business strategy" "tips"
        [("brand_tone", PVal.null)] "" [] = none ∧
    visualStyleSpec "business strategy" "tips" [("brand_tone", PVal.null)] "" []
      = "modern_corporate_b2b" ∧
    brandToneOf [("brand_tone", PVal.null)] = none := by
  exact ⟨by decide, by decide, by decide⟩

/-- C6 (amended): the Visual Style Classifier is deterministic (identical inputs
yield the same result), an explicitly requested style present in the catalog is
returned unchanged for every business context (the override returns before the
brand-tone read), and on every business context whose `brand_tone` field is
absent or a string -- i.e. whenever the `.lower()` call at line 274 does not
raise -- the classifier returns exactly the spec-level strict-precedence result
`visualStyleSpec` (ordered theme keyword groups with first match winning, then
industry substrings, then brand-tone substrings, then the fixed default
`minimal_clean_bold_typography`). -/
theorem visual_style_classifier_contract :
    (∀ ct t bc rs cat ct2 t2 bc2 rs2 cat2,
        ct = ct2 → t = t2 → bc = bc2 → rs = rs2 → cat = cat2 →
        analyze_content_for_visual_style ct t bc rs cat
          = analyze_content_for_visual_style ct2 t2 bc2 rs2 cat2) ∧
    (∀ ct t bc rs cat, rs ≠ "" → rs ∈ cat →
        analyze_content_for_visual_style ct t bc rs cat = some rs) ∧
    (∀ ct t bc rs cat tone, brandToneOf bc = some tone →
        analyze_content_for_visual_style ct t bc rs cat
          = some (visualStyleSpec ct t bc rs cat)) := by
  refine ⟨?_, ?_, ?_⟩
  · intro ct t bc rs cat ct2 t2 bc2 rs2 cat2 h1 h2 h3 h4 h5
    subst h1; subst h2; subst h3; subst h4; subst h5; rfl
  · intro ct t bc rs cat h1 h2
    unfold analyze_content_for_visual_style
    rw [if_pos ⟨h1, h2⟩]
  · intro ct t bc rs cat tone hTone
    exact analyze_eq_visualStyleSpec ct t bc rs cat tone hTone

theorem visual_style_classifier_contract_witness :
    analyze_content_for_visual_style "growth" "t" ([] : Row) "luxury_editorial"
        ["luxury_editorial"] = some "luxury_editorial" ∧
    analyze_content_for_visual_style "business tips" "t" ([] : Row) "" []
      = some (visualStyleSpec "business tips" "t" ([] : Row) "" []) :=
  ⟨visual_style_classifier_contract.2.1 "growth" "t" [] "luxury_editorial"
      ["luxury_editorial"] (by decide) (by decide),
   visual_style_classifier_contract.2.2 "business tips" "t" [] "" [] "" rfl⟩

/-- C7: evaluating `generate_content` hashtag synthesis shows that reel and video
entries never receive the short-video tags, because the source compares
`content_type` against the literal string `short_video or reel`; carousel and
story entries do receive their documented tags, and only the unreachable literal
content type would trigger the short-video branch. -/
theorem hashtag_short_video_branch_dead :
    (generate_content { content_type := "reel" } ([] : Row)).map
        (fun cd => (cd.hashtags.contains "#Reels", cd.hashtags.contains "#ShortVideo"))
      = some (false, false) ∧
    (generate_content { content_type := "video" } ([] : Row)).map
        (fun cd => (cd.hashtags.contains "#Reels", cd.hashtags.contains "#ShortVideo"))
      = some (false, false) ∧
    (generate_content { content_type := "carousel" } ([] : Row)).map
        (fun cd => (cd.hashtags.contains "#Carousel", cd.hashtags.contains "#Swipe"))
      = some (true, true) ∧
    (generate_content { content_type := "story" } ([] : Row)).map
        (fun cd => (cd.hashtags.contains "#Stories", cd.hashtags.contains "#BehindTheScenes"))
      = some (true, true) ∧
    (generate_content { content_type := "short_video or reel" } ([] : Row)).map
        (fun cd => (cd.hashtags.contains "#Reels", cd.hashtags.contains "#ShortVideo"))
      = some (true, true) := by
  exact ⟨by decide, by decide, by decide, by decide, by decide⟩

/-- C8 counterexample: on the spec scenario entry and context, the synthesized
hashtag list contains neither `#Retail` nor `#SpringSale`, refuting the claim as
stated. -/
theorem c8_expected_tags_absent :
    (generate_content entryC8 bcC8).map
        (fun cd => (cd.hashtags.contains "#Retail", cd.hashtags.contains "#SpringSale"))
      = some (false, false) := by
  decide

/-- C8 amended: the scenario yields title `Acme: Spring Sale`, `generate_image`
true, aspect ratio `1:1`, and hashtags `#Business`, `#Success`, `#retail` and
`#Springsale` (the industry tag is not capitalized by the code, and Python
`capitalize()` lower-cases the rest of the topic tag). -/
theorem c8_end_to_end_amended :
    (generate_content entryC8 bcC8).map
        (fun cd => (cd.title, cd.generate_image, cd.aspect_ratio, cd.hashtags))
      = some (some "Acme: Spring Sale", true, "1:1",
              ["#Business", "#Success", "#retail", "#Springsale"]) := by
  decide

set_option maxRecDepth 8192 in
/-- C1: at a concrete content record and enhanced prompt, `create_gemini_image_prompt`
returns the enhanced base prompt unchanged; neither the brand-color directive block
nor the content-type-specific directive block occurs in the output, although both
blocks are computed (and non-empty): the source never appends them. -/
theorem prompt_composer_drops_directive_blocks :
    create_gemini_image_prompt cdC1 "minimal_clean_bold_typography" "Instagram"
        ([] : Row) epC1 = epC1 ∧
    strContains (create_gemini_image_prompt cdC1 "minimal_clean_bold_typography" "Instagram"
        ([] : Row) epC1) "CRITICAL BRAND COLOR REQUIREMENTS" = false ∧
    strContains (create_gemini_image_prompt cdC1 "minimal_clean_bold_typography" "Instagram"
        ([] : Row) epC1) "CONTENT SPECIFIC" = false ∧
    0 < (brand_color_addition_block cdC1.primary_color cdC1.secondary_color
        cdC1.business_name cdC1.content_theme "Instagram" cdC1.aspect_ratio "unknown").length ∧
    0 < (get_content_specific_prompt_addition cdC1).length := by
  exact ⟨by decide, by decide, by decide, by decide, by decide⟩

/-- C5: when the image client is available, the composed prompt is non-empty and the
primary generation call fails, exactly one retry is submitted, and its prompt is the
simplified `basic_prompt` built only from visual_style, platform, topic,
business_name and industry; if the retry also fails the stage returns no asset
(and never raises: the embedding is a total function returning a value in every
case). -/
theorem image_stage_single_retry (entry : Entry) (cd : ContentData) (env : ImgEnv)
    (ep : String)
    (hAvail : env.openaiAvailable = true)
    (hPrompt : create_gemini_image_prompt cd entry.visual_style entry.platform
        (load_user_profile env.profileFetch) ep ≠ "")
    (hFail : env.primaryGen = none) :
    (generate_and_save_images entry cd env ep).2
      = [create_gemini_image_prompt cd entry.visual_style entry.platform
           (load_user_profile env.profileFetch) ep,
         basic_prompt entry.visual_style entry.platform entry.topic
           (load_user_profile env.profileFetch)] ∧
    (env.retryGen = none → (generate_and_save_images entry cd env ep).1 = none) := by
  constructor
  · unfold generate_and_save_images
    rw [if_pos ⟨hAvail, hPrompt⟩, hFail]
    cases hr : env.retryGen with
    | none => rfl
    | some url => cases hu : env.upload url <;> simp [hu]
  · intro hr
    unfold generate_and_save_images
    rw [if_pos ⟨hAvail, hPrompt⟩, hFail, hr]


theorem image_stage_single_retry_witness :
    (generate_and_save_images {} {} envW "").2
      = [create_gemini_image_prompt {} ({} : Entry).visual_style ({} : Entry).platform
           (load_user_profile envW.profileFetch) "",
         basic_prompt ({} : Entry).visual_style ({} : Entry).platform ({} : Entry).topic
           (load_user_profile envW.profileFetch)] ∧
    (envW.retryGen = none → (generate_and_save_images {} {} envW "").1 = none) :=
  image_stage_single_retry {} {} envW "" rfl (by decide) rfl

/-- C9: for every content record (in particular one with no image URL, no caption
and no script), the Persistence Stage completes normally for every insert outcome
(an insert failure is caught inside the stage), and the built row carries
status `generated`, the synthesized title, a body that prefers a present (non-empty)
generated caption over the synthesized content text, the hashtags, and platform and
content type normalized to lower case. -/
theorem persistence_stage_contract (entry : Entry) (cd : ContentData) (user_id : String)
    (image_url caption : Option String) (ins : DbRow → InsertOutcome)
    (hcap : caption = none ∨ ∃ c, caption = some c ∧ c ≠ "") :
    (save_to_created_content entry cd user_id image_url caption ins).2 = true ∧
    (save_to_created_content entry cd user_id image_url caption ins).1.status
      = "generated" ∧
    (save_to_created_content entry cd user_id image_url caption ins).1.title
      = cd.title.getD (cd.business_name ++ ": " ++ entry.topic) ∧
    (save_to_created_content entry cd user_id image_url caption ins).1.content
      = (match caption with
         | some c => c
         | none => cd.content.getD ("Content about " ++ entry.topic)) ∧
    (save_to_created_content entry cd user_id image_url caption ins).1.hashtags
      = cd.hashtags ∧
    (save_to_created_content entry cd user_id image_url caption ins).1.content_type
      = pyLower entry.content_type ∧
    (save_to_created_content entry cd user_id image_url caption ins).1.platform
      = (if entry.platform = "" then none else some (pyLower entry.platform)) := by
  have hrow : (save_to_created_content entry cd user_id image_url caption ins).1
      = build_db_data entry cd user_id image_url caption := by
    unfold save_to_created_content
    cases ins (build_db_data entry cd user_id image_url caption) <;> rfl
  have hok : (save_to_created_content entry cd user_id image_url caption ins).2 = true := by
    unfold save_to_created_content
    cases ins (build_db_data entry cd user_id image_url caption) <;> rfl
  refine ⟨hok, ?_, ?_, ?_, ?_, ?_, ?_⟩ <;> rw [hrow]
  · rfl
  · rfl
  · rcases hcap with h | ⟨c, hc, hne⟩
    · subst h; rfl
    · subst hc; simp [build_db_data, hne]
  · rfl
  · rfl
  · rfl

theorem persistence_stage_contract_witness :
    (save_to_created_content {} {} "user-1" none none insFailW).2 = true ∧
    (save_to_created_content {} {} "user-1" none none insFailW).1.status = "generated" ∧
    (save_to_created_content {} {} "user-1" none none insFailW).1.hashtags = [] :=
  ⟨(persistence_stage_contract {} {} "user-1" none none insFailW (Or.inl rfl)).1,
   (persistence_stage_contract {} {} "user-1" none none insFailW (Or.inl rfl)).2.1,
   (persistence_stage_contract {} {} "user-1" none none insFailW (Or.inl rfl)).2.2.2.2.1⟩

/-- C2: the calendar entry is updated exactly when content synthesis returned a
content record: the update sets content=true and status=content_generated, it is
insensitive to the image-stage outcome (the environment's image result is
universally quantified), and whenever the update does not run -- in particular when
synthesis fails -- the entry state is left unchanged. -/
theorem process_entry_marks_generated_iff_synthesis (env : PipelineEnv) (entry : Entry)
    (st : EntryState) :
    ((process_single_entry env entry st).2.updated = true ↔
       ∃ cd, (process_single_entry env entry st).2.synthResult = some (some cd)) ∧
    ((process_single_entry env entry st).2.updated = true →
       (process_single_entry env entry st).1
         = { content := true, status := "content_generated" }) ∧
    ((process_single_entry env entry st).2.updated = false →
       (process_single_entry env entry st).1 = st) := by
  cases henv : env.calendarUser with
  | none => simp [process_single_entry, henv]
  | some uid =>
      by_cases hbc : load_user_profile env.profileFetch = ([] : Row)
      · simp [process_single_entry, henv, hbc]
      · cases hs : env.synth with
        | none => simp [process_single_entry, henv, hbc, hs]
        | some cd => simp [process_single_entry, henv, hbc, hs]

theorem process_entry_marks_generated_iff_synthesis_witness :
    (process_single_entry envC2ok {} { content := false, status := "pending" }).1
        = { content := true, status := "content_generated" } ∧
    (process_single_entry envC2fail {} { content := false, status := "pending" }).1
        = { content := false, status := "pending" } :=
  ⟨(process_entry_marks_generated_iff_synthesis envC2ok {}
      { content := false, status := "pending" }).2.1 (by decide),
   (process_entry_marks_generated_iff_synthesis envC2fail {}
      { content := false, status := "pending" }).2.2 (by decide)⟩

/-- C10: when synthesis succeeds but the `created_content` insert fails, the
persistence stage catches the failure and the unconditional status update still
runs: the entry reaches content=true / status=content_generated with no persisted
content row. -/
theorem insert_failure_still_marks_generated (env : PipelineEnv) (entry : Entry)
    (st : EntryState) (uid : String) (cd : ContentData) (msg : String)
    (h1 : env.calendarUser = some uid)
    (h2 : 0 < (load_user_profile env.profileFetch).length)
    (h3 : env.synth = some cd)
    (h4 : env.insert = .dbError msg) :
    (process_single_entry env entry st).1
      = { content := true, status := "content_generated" } ∧
    (process_single_entry env entry st).2.insertCalled = true ∧
    (process_single_entry env entry st).2.savedRow = none := by
  have hbc : ¬ (load_user_profile env.profileFetch = ([] : Row)) := by
    intro h
    rw [h] at h2
    simp at h2
  simp [process_single_entry, h1, h3, h4, hbc]

theorem insert_failure_still_marks_generated_witness :
    (process_single_entry envC10 {} { content := false, status := "pending" }).1
      = { content := true, status := "content_generated" } ∧
    (process_single_entry envC10 {} { content := false, status := "pending" }).2.insertCalled
      = true ∧
    (process_single_entry envC10 {} { content := false, status := "pending" }).2.savedRow
      = none :=
  insert_failure_still_marks_generated envC10 {} { content := false, status := "pending" }
    "user-1" {} "insert failed" rfl (by decide) rfl rfl

end Leo
